import Mathlib

/-!
# Verification of the essay-writer revision workflow

Shallow embedding of `essay_writer_console.py`: the workflow state
(`AgentState`), the five stage functions, the search resolver with
provider fallback (`search_with_fallback`), and the orchestrating state
machine built from the LangGraph edges.  External collaborators (the
text-completion endpoint and the two search providers) are modelled as
oracle functions bundled in an `Env`; a failing external call is an
`Except.error`, mirroring a raised exception.
-/

/-- A completion-endpoint failure (`requests` exception / non-success status
in `call_mistral_api`); carries the response body when available. -/
inductive CompletionError where
  | httpError (body : String)
  | transportError (msg : String)
deriving Repr, DecidableEq

/-- A search-provider failure (any exception thrown by the provider call). -/
inductive SearchFailure where
  | fail (msg : String)
deriving Repr, DecidableEq

/-- One role-tagged message, as the Python dicts `{"role": .., "content": ..}`. -/
structure Msg where
  role : String
  content : String
deriving Repr, DecidableEq

/-- One item of a Google Custom Search response's `items` list; the code
extracts `r.get('snippet', '')`, so the snippet field may be absent. -/
structure GoogleItem where
  snippet : Option String
deriving Repr, DecidableEq

/-- The `AgentState` TypedDict of the source. -/
structure AgentState where
  task : String
  plan : String
  draft : String
  critique : String
  content : List String
  revision_number : Nat
  max_revisions : Nat
deriving Repr, DecidableEq

/-- A partial state update, as returned by each node function (a Python dict
holding only the keys the node writes; `none` = key absent). -/
structure Update where
  task : Option String := none
  plan : Option String := none
  draft : Option String := none
  critique : Option String := none
  content : Option (List String) := none
  revision_number : Option Nat := none
  max_revisions : Option Nat := none
deriving Repr, DecidableEq

/-- LangGraph merges a node's returned dict into the state: each present key
overwrites the corresponding field (the `AgentState` schema declares no
reducers, so updates are plain overwrites). -/
def applyUpdate (st : AgentState) (u : Update) : AgentState :=
  { task := u.task.getD st.task
    plan := u.plan.getD st.plan
    draft := u.draft.getD st.draft
    critique := u.critique.getD st.critique
    content := u.content.getD st.content
    revision_number := u.revision_number.getD st.revision_number
    max_revisions := u.max_revisions.getD st.max_revisions }

/-- The initial state dict passed to `graph.invoke` in `main`. -/
def initialState (task : String) (max_revisions : Nat) : AgentState :=
  { task := task
    max_revisions := max_revisions
    revision_number := 0
    content := []
    plan := ""
    draft := ""
    critique := "" }

/-- The external world: the completion endpoint (`requests.post` to the
Mistral URL, modelled by the text of `response['choices'][0]['text']` on
success), the Tavily provider (modelled by the `content` fields of the
response's `results` list), whether the Google credentials
(`GOOGLE_API_KEY and GOOGLE_CSE_ID`) are configured, and the Google provider
(modelled by the response's `items` list). -/
structure Env where
  post : String → String → Except CompletionError String
  tavily : String → Nat → Except SearchFailure (List String)
  googleConfigured : Bool
  google : String → Nat → Except SearchFailure (List GoogleItem)

def MISTRAL_API_URL : String := "http://localhost:4000/v1/completions"

/-- The prompt built by `call_mistral_api`:
`"\n".join(f"\x7bmsg['role']\x7d: \x7bmsg['content']\x7d" for msg in messages)`. -/
def mkPrompt (messages : List Msg) : String :=
  String.intercalate "\n" (messages.map (fun m => m.role ++ ": " ++ m.content))

/-- `call_mistral_api`: builds the prompt, posts it; an HTTP or transport
failure propagates to the caller (re-raised). -/
def call_mistral_api (env : Env) (messages : List Msg) :
    Except CompletionError String :=
  env.post MISTRAL_API_URL (mkPrompt messages)

def PLAN_PROMPT : String :=
  "You are an expert writer tasked with writing a high-level outline of an essay.\nWrite such an outline for the user provided topic. Give an outline of the essay along with any relevant notes\nor instructions for the sections."

/-- `WRITER_PROMPT.format(content=content)` of the source. -/
def WRITER_PROMPT (content : String) : String :=
  "You are an essay assistant tasked with writing excellent 5-paragraph essays.\nGenerate the best essay possible for the user's request and the initial outline.\nIf the user provides critique, respond with a revised version of your previous attempts.\nUtilize all the information below as needed:\n\n------\n\n" ++ content

def REFLECTION_PROMPT : String :=
  "You are a teacher grading an essay submission.\nGenerate critique and recommendations for the user's submission.\nProvide detailed recommendations, including requests for length, depth, style, etc."

def RESEARCH_PLAN_PROMPT : String :=
  "You are a researcher charged with providing information that can\nbe used when writing the following essay. Generate a list of search queries that will gather\nany relevant information. Only generate 3 queries max."

def RESEARCH_CRITIQUE_PROMPT : String :=
  "You are a researcher charged with providing information that can\nbe used when making any requested revisions (as outlined below).\nGenerate a list of search queries that will gather any relevant information. Only generate 3 queries max."

/-- `google_search`: calls the Google Custom Search API with
`num = max_results`; catches every exception and returns `None` on failure,
otherwise the parsed JSON response (modelled by its `items` list). -/
def google_search (env : Env) (query : String) (max_results : Nat) :
    Option (List GoogleItem) :=
  match env.google query max_results with
  | .ok items => some items
  | .error _ => none

/-- `search_with_fallback`: try Tavily; on ≥ 1 result return the `content`
fields.  On failure or empty results, if Google credentials are configured,
try Google; on ≥ 1 item return the `snippet` fields (`''` when absent).
Otherwise return `[]`. -/
def search_with_fallback (env : Env) (query : String) (max_results : Nat) :
    List String :=
  let fallback : List String :=
    if env.googleConfigured then
      match google_search env query max_results with
      | some items =>
        if items.isEmpty then [] else items.map (fun r => r.snippet.getD "")
      | none => []
    else []
  match env.tavily query max_results with
  | .ok results => if results.isEmpty then fallback else results
  | .error _ => fallback

/-- Python's `str.strip()`: drop leading and trailing whitespace. -/
def pyStrip (s : String) : String :=
  String.mk
    (((s.data.dropWhile Char.isWhitespace).reverse.dropWhile
        Char.isWhitespace).reverse)

/-- Helper for `pySplitChar`: the piece accumulated so far (reversed) and
the rest of the characters. -/
def pySplitCharAux (sep : Char) : List Char → List Char → List String
  | [], acc => [String.mk acc.reverse]
  | ch :: rest, acc =>
    if ch = sep then String.mk acc.reverse :: pySplitCharAux sep rest []
    else pySplitCharAux sep rest (ch :: acc)

/-- Python's `str.split(sep)` for a one-character separator: every maximal
piece between separators, keeping empty pieces (`"".split(c) = [""]`). -/
def pySplitChar (sep : Char) (s : String) : List String :=
  pySplitCharAux sep s.data []

/-- The query parsing shared by both research nodes:
`[q.strip() for q in text.split('\n') if q.strip()]`. -/
def parseQueries (text : String) : List String :=
  ((pySplitChar '\n' text).map pyStrip).filter (fun q => ¬ q.isEmpty)

def planMessages (st : AgentState) : List Msg :=
  [⟨"system", PLAN_PROMPT⟩, ⟨"user", st.task⟩]

def researchPlanMessages (st : AgentState) : List Msg :=
  [⟨"system", RESEARCH_PLAN_PROMPT⟩, ⟨"user", st.task⟩]

def generateMessages (st : AgentState) : List Msg :=
  [⟨"system", WRITER_PROMPT (String.intercalate "\n\n" st.content)⟩,
   ⟨"user", st.task ++ "\n\nHere is my plan:\n\n" ++ st.plan⟩]

def reflectionMessages (st : AgentState) : List Msg :=
  [⟨"system", REFLECTION_PROMPT⟩, ⟨"user", st.draft⟩]

def researchCritiqueMessages (st : AgentState) : List Msg :=
  [⟨"system", RESEARCH_CRITIQUE_PROMPT⟩, ⟨"user", st.critique⟩]

/-- `plan_node`: one completion call, then sets `plan`. -/
def plan_node (env : Env) (st : AgentState) : Except CompletionError Update :=
  match call_mistral_api env (planMessages st) with
  | .error e => .error e
  | .ok response => .ok { plan := some response }

/-- `research_plan_node`: one completion call, parse queries, search the
first 3 appending each result list to `content`. -/
def research_plan_node (env : Env) (st : AgentState) :
    Except CompletionError Update :=
  match call_mistral_api env (researchPlanMessages st) with
  | .error e => .error e
  | .ok response =>
    let queries := parseQueries response
    let content :=
      (queries.take 3).foldl
        (fun acc q => acc ++ search_with_fallback env q 2) st.content
    .ok { content := some content }

/-- `generation_node`: one completion call, then sets `draft` and increments
`revision_number` (`state.get("revision_number", 1) + 1`; the field is always
present, so this is `revision_number + 1`). -/
def generation_node (env : Env) (st : AgentState) :
    Except CompletionError Update :=
  match call_mistral_api env (generateMessages st) with
  | .error e => .error e
  | .ok response =>
    .ok { draft := some response
          revision_number := some (st.revision_number + 1) }

/-- `reflection_node`: one completion call, then sets `critique`. -/
def reflection_node (env : Env) (st : AgentState) :
    Except CompletionError Update :=
  match call_mistral_api env (reflectionMessages st) with
  | .error e => .error e
  | .ok response => .ok { critique := some response }

/-- `research_critique_node`: like `research_plan_node`, seeded from
`critique`. -/
def research_critique_node (env : Env) (st : AgentState) :
    Except CompletionError Update :=
  match call_mistral_api env (researchCritiqueMessages st) with
  | .error e => .error e
  | .ok response =>
    let queries := parseQueries response
    let content :=
      (queries.take 3).foldl
        (fun acc q => acc ++ search_with_fallback env q 2) st.content
    .ok { content := some content }

/-- The value returned by `should_continue`: `END` or `"reflect"`. -/
inductive Decision where
  | finished
  | reflect
deriving Repr, DecidableEq

/-- `should_continue`: `END` when `revision_number > max_revisions`, else
`"reflect"`. -/
def should_continue (st : AgentState) : Decision :=
  if st.revision_number > st.max_revisions then .finished else .reflect

/-- The graph's nodes. -/
inductive Node where
  | planner
  | research_plan
  | generate
  | reflect
  | research_critique
deriving Repr, DecidableEq

/-- One orchestrator step: run the node on the state, apply its update, and
follow the graph's edge (`none` = `END`, reached only through the
conditional edge out of `generate`).  A node failure propagates. -/
def stepNode (env : Env) : Node → AgentState →
    Except CompletionError (Option Node × AgentState)
  | .planner, st =>
    match plan_node env st with
    | .error e => .error e
    | .ok u => .ok (some .research_plan, applyUpdate st u)
  | .research_plan, st =>
    match research_plan_node env st with
    | .error e => .error e
    | .ok u => .ok (some .generate, applyUpdate st u)
  | .generate, st =>
    match generation_node env st with
    | .error e => .error e
    | .ok u =>
      let st' := applyUpdate st u
      match should_continue st' with
      | .finished => .ok (none, st')
      | .reflect => .ok (some .reflect, st')
  | .reflect, st =>
    match reflection_node env st with
    | .error e => .error e
    | .ok u => .ok (some .research_critique, applyUpdate st u)
  | .research_critique, st =>
    match research_critique_node env st with
    | .error e => .error e
    | .ok u => .ok (some .generate, applyUpdate st u)

/-- 1 when the node is the Generate stage (for counting its invocations). -/
def genInc : Node → Nat
  | .generate => 1
  | _ => 0

/-- Run the orchestrator from a node with the given fuel.  Returns the final
state and the number of Generate invocations performed; `ok none` means the
fuel ran out before the terminal state. -/
def runFrom (env : Env) : Nat → Node → AgentState →
    Except CompletionError (Option (AgentState × Nat))
  | 0, _, _ => .ok none
  | fuel + 1, node, st =>
    match stepNode env node st with
    | .error e => .error e
    | .ok (none, stFinal) => .ok (some (stFinal, genInc node))
    | .ok (some next, st') =>
      match runFrom env fuel next st' with
      | .error e => .error e
      | .ok none => .ok none
      | .ok (some (stFinal, c)) => .ok (some (stFinal, genInc node + c))

/-- `main`'s input validation: `input().strip()`; a blank topic is rejected
before the graph is invoked. -/
def validateTopic (raw : String) : Option String :=
  let t := pyStrip raw
  if t.isEmpty then none else some t

/-- The workflow state `main` creates, when the topic passes validation
(`max_revisions = 3`); `none` = run rejected, no state created, graph never
invoked. -/
def mainInit (raw : String) : Option AgentState :=
  (validateTopic raw).map (fun topic => initialState topic 3)

/-! ## Concrete environments used by the witnesses -/

/-- All external calls succeed deterministically. -/
def testEnv : Env :=
  { post := fun _ _ => .ok "response text"
    tavily := fun _ _ => .ok ["tavily snippet"]
    googleConfigured := true
    google := fun _ _ => .ok [⟨some "google snippet"⟩] }

/-- The completion endpoint fails on every call. -/
def failPostEnv : Env :=
  { testEnv with post := fun _ _ => .error (.httpError "boom") }

/-- Tavily is down; Google is configured and succeeds. -/
def tavilyDownEnv : Env :=
  { testEnv with tavily := fun _ _ => .error (.fail "down") }

/-- Every search provider is down and Google is unconfigured. -/
def allDownEnv : Env :=
  { testEnv with
    tavily := fun _ _ => .error (.fail "down")
    googleConfigured := false
    google := fun _ _ => .error (.fail "down") }

/-- The completion endpoint returns an empty text (zero parseable query
lines). -/
def emptyRespEnv : Env :=
  { testEnv with post := fun _ _ => .ok "" }

/-- `appendOnly old new`: `new` extends `old` at the end only — `old` is a
prefix of `new`, no element removed, replaced or reordered. -/
def appendOnly (old new : List String) : Prop :=
  ∃ tail, new = old ++ tail

/-! ## Search resolver: fallback, short-circuit, length bound -/

/-- C3: when the primary provider fails or returns no result and the
secondary provider is configured and returns ≥ 1 item, the resolver returns
the secondary's snippets (the `snippet` field of each item, in order); when
both providers fail, are unconfigured, or return empty, it returns the empty
sequence.  The resolver is a total function, so no exception reaches the
caller in either case. -/
theorem search_fallback_correct (env : Env) (q : String) (n : Nat)
    (hfail : (∃ e, env.tavily q n = .error e) ∨ env.tavily q n = .ok []) :
    (∀ items, env.googleConfigured = true → env.google q n = .ok items →
        items ≠ [] →
        search_with_fallback env q n = items.map (fun r => r.snippet.getD "")) ∧
    ((env.googleConfigured = false ∨ (∃ e, env.google q n = .error e) ∨
        env.google q n = .ok []) →
      search_with_fallback env q n = []) := by
  constructor
  · intro items hconf hgoog hne
    rcases hfail with ⟨e, he⟩ | he <;>
      simp [search_with_fallback, google_search, he, hconf, hgoog, hne]
  · intro hdead
    rcases hfail with ⟨e, he⟩ | he <;>
      rcases hdead with hconf | ⟨e2, hg⟩ | hg <;>
        simp [search_with_fallback, google_search, he, *]

/-- Witness for C3: Tavily down, Google configured and succeeding. -/
theorem search_fallback_correct_witness :
    search_with_fallback tavilyDownEnv "q" 2 = ["google snippet"] :=
  (search_fallback_correct tavilyDownEnv "q" 2 (Or.inl ⟨.fail "down", rfl⟩)).1
    [⟨some "google snippet"⟩] rfl rfl (by simp)

/-- C4: when the primary provider succeeds with ≥ 1 result, the resolver
returns exactly those results, and the secondary provider is never
consulted: the output is invariant under replacing the Google oracle and its
configuration flag by anything at all. -/
theorem search_primary_short_circuit (env : Env) (q : String) (n : Nat)
    (results : List String) (hok : env.tavily q n = .ok results)
    (hne : results ≠ []) :
    search_with_fallback env q n = results ∧
    ∀ g b, search_with_fallback
        { env with google := g, googleConfigured := b } q n = results := by
  constructor
  · simp [search_with_fallback, hok, hne]
  · intro g b
    simp [search_with_fallback, hok, hne]

/-- Witness for C4: Tavily succeeding on the all-up environment. -/
theorem search_primary_short_circuit_witness :
    search_with_fallback testEnv "q" 2 = ["tavily snippet"] :=
  (search_primary_short_circuit testEnv "q" 2 ["tavily snippet"] rfl
    (by simp)).1

/-- C7: assuming each provider honours its `max_results` argument (Tavily is
called with `max_results`, Google with `num = max_results`), the resolver
returns between 0 and `max_results` snippets; the code itself never adds
elements beyond what one provider returned. -/
theorem search_length_bound (env : Env) (q : String) (n : Nat)
    (htav : ∀ rs, env.tavily q n = .ok rs → rs.length ≤ n)
    (hgoog : ∀ items, env.google q n = .ok items → items.length ≤ n) :
    0 ≤ (search_with_fallback env q n).length ∧
    (search_with_fallback env q n).length ≤ n := by
  refine ⟨Nat.zero_le _, ?_⟩
  unfold search_with_fallback google_search
  cases htv : env.tavily q n with
  | ok rs =>
    by_cases hrs : rs.isEmpty
    · simp only [hrs, if_true]
      cases hconf : env.googleConfigured with
      | false => simp
      | true =>
        simp only [if_true]
        cases hg : env.google q n with
        | ok items =>
          by_cases hi : items.isEmpty <;>
            simp [hi, hgoog items hg]
        | error e => simp
    · simp [hrs, htav rs htv]
  | error e =>
    cases hconf : env.googleConfigured with
    | false => simp
    | true =>
      simp only [if_true]
      cases hg : env.google q n with
      | ok items =>
        by_cases hi : items.isEmpty <;>
          simp [hi, hgoog items hg]
      | error e2 => simp

/-- Witness for C7: both provider contracts hold on the all-up environment. -/
theorem search_length_bound_witness :
    0 ≤ (search_with_fallback testEnv "q" 2).length ∧
    (search_with_fallback testEnv "q" 2).length ≤ 2 :=
  search_length_bound testEnv "q" 2
    (fun rs h => by injection h with h; subst h; decide)
    (fun items h => by injection h with h; subst h; decide)

/-! ## Input validation -/

/-- C8: a run invoked with an empty or blank topic is rejected by `main`'s
validation before the graph is invoked: `validateTopic` reports the failure
and `mainInit` creates no workflow state, so no stage runs and no external
call is made. -/
theorem blank_topic_rejected (raw : String)
    (h : (pyStrip raw).isEmpty = true) :
    validateTopic raw = none ∧ mainInit raw = none := by
  constructor
  · simp [validateTopic, h]
  · simp [mainInit, validateTopic, h]

/-- Witness for C8: a whitespace-only topic. -/
theorem blank_topic_rejected_witness :
    validateTopic "   " = none ∧ mainInit "   " = none :=
  blank_topic_rejected "   " (by decide)

/-! ## Frame: `task` and `max_revisions` are never written -/

lemma plan_node_frame (env : Env) (st : AgentState) (u : Update)
    (h : plan_node env st = .ok u) :
    u.task = none ∧ u.max_revisions = none := by
  revert h
  unfold plan_node
  cases call_mistral_api env (planMessages st) with
  | error e => intro h; exact Except.noConfusion h
  | ok r => intro h; injection h with h; subst h; exact ⟨rfl, rfl⟩

lemma research_plan_node_frame (env : Env) (st : AgentState) (u : Update)
    (h : research_plan_node env st = .ok u) :
    u.task = none ∧ u.max_revisions = none := by
  revert h
  unfold research_plan_node
  cases call_mistral_api env (researchPlanMessages st) with
  | error e => intro h; exact Except.noConfusion h
  | ok r => intro h; injection h with h; subst h; exact ⟨rfl, rfl⟩

lemma generation_node_frame (env : Env) (st : AgentState) (u : Update)
    (h : generation_node env st = .ok u) :
    u.task = none ∧ u.max_revisions = none := by
  revert h
  unfold generation_node
  cases call_mistral_api env (generateMessages st) with
  | error e => intro h; exact Except.noConfusion h
  | ok r => intro h; injection h with h; subst h; exact ⟨rfl, rfl⟩

lemma reflection_node_frame (env : Env) (st : AgentState) (u : Update)
    (h : reflection_node env st = .ok u) :
    u.task = none ∧ u.max_revisions = none := by
  revert h
  unfold reflection_node
  cases call_mistral_api env (reflectionMessages st) with
  | error e => intro h; exact Except.noConfusion h
  | ok r => intro h; injection h with h; subst h; exact ⟨rfl, rfl⟩

lemma research_critique_node_frame (env : Env) (st : AgentState) (u : Update)
    (h : research_critique_node env st = .ok u) :
    u.task = none ∧ u.max_revisions = none := by
  revert h
  unfold research_critique_node
  cases call_mistral_api env (researchCritiqueMessages st) with
  | error e => intro h; exact Except.noConfusion h
  | ok r => intro h; injection h with h; subst h; exact ⟨rfl, rfl⟩

/-- Any successful orchestrator step preserves `task` and `max_revisions`. -/
lemma stepNode_frame (env : Env) (node : Node) (st : AgentState)
    (r : Option Node × AgentState) (h : stepNode env node st = .ok r) :
    r.2.task = st.task ∧ r.2.max_revisions = st.max_revisions := by
  cases node <;> simp only [stepNode] at h
  case planner =>
    split at h
    · exact absurd h (by simp)
    · rename_i u heq
      injection h with h
      subst h
      have hf := plan_node_frame env st u heq
      simp [applyUpdate, hf.1, hf.2]
  case research_plan =>
    split at h
    · exact absurd h (by simp)
    · rename_i u heq
      injection h with h
      subst h
      have hf := research_plan_node_frame env st u heq
      simp [applyUpdate, hf.1, hf.2]
  case generate =>
    split at h
    · exact absurd h (by simp)
    · rename_i u heq
      have hf := generation_node_frame env st u heq
      split at h
      all_goals
        injection h with h
        subst h
        simp [applyUpdate, hf.1, hf.2]
  case reflect =>
    split at h
    · exact absurd h (by simp)
    · rename_i u heq
      injection h with h
      subst h
      have hf := reflection_node_frame env st u heq
      simp [applyUpdate, hf.1, hf.2]
  case research_critique =>
    split at h
    · exact absurd h (by simp)
    · rename_i u heq
      injection h with h
      subst h
      have hf := research_critique_node_frame env st u heq
      simp [applyUpdate, hf.1, hf.2]

/-- C9: no stage's update dict contains the `task` or `max_revisions` key,
and applying any step of the orchestrator leaves both fields unchanged. -/
theorem stages_preserve_task_and_max (env : Env) (st : AgentState) :
    (∀ u, plan_node env st = .ok u →
        u.task = none ∧ u.max_revisions = none) ∧
    (∀ u, research_plan_node env st = .ok u →
        u.task = none ∧ u.max_revisions = none) ∧
    (∀ u, generation_node env st = .ok u →
        u.task = none ∧ u.max_revisions = none) ∧
    (∀ u, reflection_node env st = .ok u →
        u.task = none ∧ u.max_revisions = none) ∧
    (∀ u, research_critique_node env st = .ok u →
        u.task = none ∧ u.max_revisions = none) ∧
    (∀ node r, stepNode env node st = .ok r →
        r.2.task = st.task ∧ r.2.max_revisions = st.max_revisions) :=
  ⟨fun u h => plan_node_frame env st u h,
   fun u h => research_plan_node_frame env st u h,
   fun u h => generation_node_frame env st u h,
   fun u h => reflection_node_frame env st u h,
   fun u h => research_critique_node_frame env st u h,
   fun node r h => stepNode_frame env node st r h⟩

/-- Witness for C9: the Generate stage's update on a concrete state. -/
theorem stages_preserve_task_and_max_witness :
    ({ draft := some "response text", revision_number := some 1 } :
        Update).task = none ∧
    ({ draft := some "response text", revision_number := some 1 } :
        Update).max_revisions = none :=
  (stages_preserve_task_and_max testEnv (initialState "T" 3)).2.2.1
    { draft := some "response text", revision_number := some 1 } rfl

/-! ## Atomicity of each stage under completion failure -/

/-- C10: every stage issues its text-completion call before constructing any
state update, so when the completion endpoint fails on that stage's messages
the stage returns the error itself — no update dict exists, the orchestrator
step propagates the error, and the workflow state is untouched. -/
theorem stage_atomic_on_completion_failure (env : Env) (st : AgentState)
    (e : CompletionError) :
    (env.post MISTRAL_API_URL (mkPrompt (planMessages st)) = .error e →
      plan_node env st = .error e ∧ stepNode env .planner st = .error e) ∧
    (env.post MISTRAL_API_URL (mkPrompt (researchPlanMessages st)) =
        .error e →
      research_plan_node env st = .error e ∧
      stepNode env .research_plan st = .error e) ∧
    (env.post MISTRAL_API_URL (mkPrompt (generateMessages st)) = .error e →
      generation_node env st = .error e ∧
      stepNode env .generate st = .error e) ∧
    (env.post MISTRAL_API_URL (mkPrompt (reflectionMessages st)) = .error e →
      reflection_node env st = .error e ∧
      stepNode env .reflect st = .error e) ∧
    (env.post MISTRAL_API_URL (mkPrompt (researchCritiqueMessages st)) =
        .error e →
      research_critique_node env st = .error e ∧
      stepNode env .research_critique st = .error e) := by
  refine ⟨?_, ?_, ?_, ?_, ?_⟩ <;> intro h
  · have hn : plan_node env st = .error e := by
      simp [plan_node, call_mistral_api, h]
    exact ⟨hn, by simp [stepNode, hn]⟩
  · have hn : research_plan_node env st = .error e := by
      simp [research_plan_node, call_mistral_api, h]
    exact ⟨hn, by simp [stepNode, hn]⟩
  · have hn : generation_node env st = .error e := by
      simp [generation_node, call_mistral_api, h]
    exact ⟨hn, by simp [stepNode, hn]⟩
  · have hn : reflection_node env st = .error e := by
      simp [reflection_node, call_mistral_api, h]
    exact ⟨hn, by simp [stepNode, hn]⟩
  · have hn : research_critique_node env st = .error e := by
      simp [research_critique_node, call_mistral_api, h]
    exact ⟨hn, by simp [stepNode, hn]⟩

/-- Witness for C10: the always-failing completion endpoint. -/
theorem stage_atomic_on_completion_failure_witness :
    plan_node failPostEnv (initialState "T" 3) =
        .error (.httpError "boom") ∧
    stepNode failPostEnv .planner (initialState "T" 3) =
        .error (.httpError "boom") :=
  (stage_atomic_on_completion_failure failPostEnv (initialState "T" 3)
    (.httpError "boom")).1 rfl

/-! ## Research stages: query parsing, 3-query cap, empty edge case -/

/-- C6: in both research stages the query list is
`parseQueries` of the completion text — split on line breaks, strip each
line, drop empties — only the first 3 queries are searched (each appended in
order to `content`), and a response with zero parseable lines performs no
search and leaves `content` unchanged, without error. -/
theorem research_query_parsing (env : Env) (st : AgentState)
    (t₁ t₂ : String)
    (h₁ : env.post MISTRAL_API_URL (mkPrompt (researchPlanMessages st)) =
        .ok t₁)
    (h₂ : env.post MISTRAL_API_URL (mkPrompt (researchCritiqueMessages st)) =
        .ok t₂) :
    parseQueries t₁ =
      ((pySplitChar '\n' t₁).map pyStrip).filter (fun q => ¬ q.isEmpty) ∧
    research_plan_node env st =
      .ok { content := some (((parseQueries t₁).take 3).foldl
        (fun acc q => acc ++ search_with_fallback env q 2) st.content) } ∧
    research_critique_node env st =
      .ok { content := some (((parseQueries t₂).take 3).foldl
        (fun acc q => acc ++ search_with_fallback env q 2) st.content) } ∧
    (parseQueries t₁ = [] →
      research_plan_node env st = .ok { content := some st.content }) ∧
    (parseQueries t₂ = [] →
      research_critique_node env st = .ok { content := some st.content }) := by
  have hp : research_plan_node env st =
      .ok { content := some (((parseQueries t₁).take 3).foldl
        (fun acc q => acc ++ search_with_fallback env q 2) st.content) } := by
    simp [research_plan_node, call_mistral_api, h₁]
  have hc : research_critique_node env st =
      .ok { content := some (((parseQueries t₂).take 3).foldl
        (fun acc q => acc ++ search_with_fallback env q 2) st.content) } := by
    simp [research_critique_node, call_mistral_api, h₂]
  refine ⟨rfl, hp, hc, ?_, ?_⟩
  · intro hq
    rw [hp, hq]
    rfl
  · intro hq
    rw [hc, hq]
    rfl

/-- Witness for C6: an empty completion text parses to zero queries and the
research stage leaves `content` unchanged. -/
theorem research_query_parsing_witness :
    research_plan_node emptyRespEnv (initialState "T" 3) =
      .ok { content := some [] } :=
  (research_query_parsing emptyRespEnv (initialState "T" 3) "" "" rfl
    rfl).2.2.2.1 (by decide)

/-! ## Content monotonicity -/

lemma appendOnly_refl (l : List String) : appendOnly l l :=
  ⟨[], by simp⟩

lemma appendOnly_trans {a b c : List String}
    (h₁ : appendOnly a b) (h₂ : appendOnly b c) : appendOnly a c := by
  obtain ⟨t₁, rfl⟩ := h₁
  obtain ⟨t₂, rfl⟩ := h₂
  exact ⟨t₁ ++ t₂, by simp⟩

lemma appendOnly_length {a b : List String} (h : appendOnly a b) :
    a.length ≤ b.length := by
  obtain ⟨t, rfl⟩ := h
  simp

/-- Folding search-result appends over any query list only appends. -/
lemma appendOnly_foldl (f : String → List String) :
    ∀ (qs : List String) (acc : List String),
      appendOnly acc (qs.foldl (fun a q => a ++ f q) acc) := by
  intro qs
  induction qs with
  | nil => intro acc; exact appendOnly_refl acc
  | cons q qs ih =>
    intro acc
    exact appendOnly_trans ⟨f q, rfl⟩ (ih (acc ++ f q))

/-- Any successful orchestrator step only appends to `content`. -/
lemma stepNode_content_appendOnly (env : Env) (node : Node) (st : AgentState)
    (r : Option Node × AgentState) (h : stepNode env node st = .ok r) :
    appendOnly st.content r.2.content := by
  cases node <;> simp only [stepNode] at h
  case planner =>
    revert h
    unfold plan_node
    cases call_mistral_api env (planMessages st) with
    | error e => intro h; exact Except.noConfusion h
    | ok t =>
      intro h
      injection h with h
      subst h
      exact appendOnly_refl st.content
  case research_plan =>
    revert h
    unfold research_plan_node
    cases call_mistral_api env (researchPlanMessages st) with
    | error e => intro h; exact Except.noConfusion h
    | ok t =>
      intro h
      injection h with h
      subst h
      exact appendOnly_foldl _ _ st.content
  case generate =>
    split at h
    · exact absurd h (by simp)
    · rename_i u heq
      revert heq
      unfold generation_node
      cases call_mistral_api env (generateMessages st) with
      | error e => intro heq; exact Except.noConfusion heq
      | ok t =>
        intro heq
        injection heq with heq
        subst heq
        split at h
        all_goals
          injection h with h
          subst h
          exact appendOnly_refl st.content
  case reflect =>
    revert h
    unfold reflection_node
    cases call_mistral_api env (reflectionMessages st) with
    | error e => intro h; exact Except.noConfusion h
    | ok t =>
      intro h
      injection h with h
      subst h
      exact appendOnly_refl st.content
  case research_critique =>
    revert h
    unfold research_critique_node
    cases call_mistral_api env (researchCritiqueMessages st) with
    | error e => intro h; exact Except.noConfusion h
    | ok t =>
      intro h
      injection h with h
      subst h
      exact appendOnly_foldl _ _ st.content

/-- Any terminating run only appends to `content`. -/
lemma runFrom_content_appendOnly (env : Env) :
    ∀ (fuel : Nat) (node : Node) (st : AgentState) (final : AgentState)
      (c : Nat), runFrom env fuel node st = .ok (some (final, c)) →
      appendOnly st.content final.content := by
  intro fuel
  induction fuel with
  | zero =>
    intro node st final c h
    exact absurd h (by simp [runFrom])
  | succ fuel ih =>
    intro node st final c h
    rw [runFrom] at h
    split at h
    · exact Except.noConfusion h
    · rename_i stF heq
      injection h with h
      injection h with h
      injection h with h1 h2
      rw [← h1]
      exact stepNode_content_appendOnly env node st (none, stF) heq
    · rename_i nxt st' heq
      split at h
      · exact Except.noConfusion h
      · injection h with h
        exact Option.noConfusion h
      · rename_i stF c' hrec
        injection h with h
        injection h with h
        injection h with h1 h2
        rw [← h1]
        exact appendOnly_trans
          (stepNode_content_appendOnly env node st (some nxt, st') heq)
          (ih nxt st' stF c' hrec)

/-- C5: `content` only grows by appending at its end: after any successful
orchestrator step the previous `content` is a prefix of the new one (nothing
removed, replaced or reordered) and its length never decreases, and the same
holds between the start and the end of any terminating run. -/
theorem content_monotone (env : Env) :
    (∀ node st r, stepNode env node st = .ok r →
        appendOnly st.content r.2.content ∧
        st.content.length ≤ r.2.content.length) ∧
    (∀ fuel node st final c,
        runFrom env fuel node st = .ok (some (final, c)) →
        appendOnly st.content final.content ∧
        st.content.length ≤ final.content.length) :=
  ⟨fun node st r h =>
    ⟨stepNode_content_appendOnly env node st r h,
     appendOnly_length (stepNode_content_appendOnly env node st r h)⟩,
   fun fuel node st final c h =>
    ⟨runFrom_content_appendOnly env fuel node st final c h,
     appendOnly_length (runFrom_content_appendOnly env fuel node st final c h)⟩⟩

/-- Witness for C5: the planner step on the all-up environment. -/
theorem content_monotone_witness :
    appendOnly (initialState "T" 0).content
      (applyUpdate (initialState "T" 0) { plan := some "response text" }).content ∧
    (initialState "T" 0).content.length ≤
      (applyUpdate (initialState "T" 0)
        { plan := some "response text" }).content.length :=
  (content_monotone testEnv).1 .planner (initialState "T" 0)
    (some .research_plan,
      applyUpdate (initialState "T" 0) { plan := some "response text" }) rfl

/-! ## The conditional edge out of Generate -/

/-- C2: a successful Generate step applies exactly the update
`draft := response, revision_number := revision_number + 1` and then follows
the conditional edge decided by `should_continue` on the resulting state:
to the terminal state (which carries the final draft) when
`revision_number > max_revisions`, and to Reflect otherwise; the step
equation pins down that no other transition out of Generate exists. -/
theorem generate_conditional_edge (env : Env) (st : AgentState) (t : String)
    (h : env.post MISTRAL_API_URL (mkPrompt (generateMessages st)) = .ok t) :
    stepNode env .generate st =
      .ok (if st.revision_number + 1 > st.max_revisions then none
           else some Node.reflect,
        applyUpdate st
          { draft := some t,
            revision_number := some (st.revision_number + 1) }) ∧
    (applyUpdate st
        { draft := some t,
          revision_number := some (st.revision_number + 1) }).draft = t ∧
    (should_continue (applyUpdate st
        { draft := some t,
          revision_number := some (st.revision_number + 1) }) =
        Decision.finished ↔
      st.revision_number + 1 > st.max_revisions) := by
  have hrev : (applyUpdate st
      { draft := some t,
        revision_number := some (st.revision_number + 1) }).revision_number =
      st.revision_number + 1 := rfl
  have hmax : (applyUpdate st
      { draft := some t,
        revision_number := some (st.revision_number + 1) }).max_revisions =
      st.max_revisions := rfl
  refine ⟨?_, rfl, ?_⟩
  · simp only [stepNode, generation_node, call_mistral_api, h]
    by_cases hgt : st.revision_number + 1 > st.max_revisions
    · have hsc : should_continue (applyUpdate st
          { draft := some t,
            revision_number := some (st.revision_number + 1) }) =
          Decision.finished := by
        simp [should_continue, hrev, hmax, hgt]
      rw [hsc]
      simp [hgt]
    · have hsc : should_continue (applyUpdate st
          { draft := some t,
            revision_number := some (st.revision_number + 1) }) =
          Decision.reflect := by
        simp [should_continue, hrev, hmax, hgt]
      rw [hsc]
      simp [hgt]
  · simp [should_continue, hrev, hmax]

/-- Witness for C2: a concrete Generate step that reaches the terminal
state. -/
theorem generate_conditional_edge_witness :
    stepNode testEnv .generate (initialState "T" 0) =
      .ok (if (initialState "T" 0).revision_number + 1 >
            (initialState "T" 0).max_revisions then none
           else some Node.reflect,
        applyUpdate (initialState "T" 0)
          { draft := some "response text",
            revision_number :=
              some ((initialState "T" 0).revision_number + 1) }) ∧
    (applyUpdate (initialState "T" 0)
        { draft := some "response text",
          revision_number :=
            some ((initialState "T" 0).revision_number + 1) }).draft =
      "response text" ∧
    (should_continue (applyUpdate (initialState "T" 0)
        { draft := some "response text",
          revision_number :=
            some ((initialState "T" 0).revision_number + 1) }) =
        Decision.finished ↔
      (initialState "T" 0).revision_number + 1 >
        (initialState "T" 0).max_revisions) :=
  generate_conditional_edge testEnv (initialState "T" 0) "response text" rfl

/-! ## Termination of the orchestrator -/

lemma runFrom_succ (env : Env) (fuel : Nat) (node : Node) (st : AgentState) :
    runFrom env (fuel + 1) node st =
      match stepNode env node st with
      | .error e => .error e
      | .ok (none, stFinal) => .ok (some (stFinal, genInc node))
      | .ok (some next, st') =>
        match runFrom env fuel next st' with
        | .error e => .error e
        | .ok none => .ok none
        | .ok (some (stFinal, c)) =>
          .ok (some (stFinal, genInc node + c)) :=
  rfl

lemma stepNode_planner_ok (env : Env) (st : AgentState) (t : String)
    (h : env.post MISTRAL_API_URL (mkPrompt (planMessages st)) = .ok t) :
    stepNode env .planner st =
      .ok (some .research_plan, applyUpdate st { plan := some t }) := by
  simp [stepNode, plan_node, call_mistral_api, h]

lemma stepNode_research_plan_ok (env : Env) (st : AgentState) (t : String)
    (h : env.post MISTRAL_API_URL (mkPrompt (researchPlanMessages st)) =
      .ok t) :
    stepNode env .research_plan st =
      .ok (some .generate, applyUpdate st
        { content := some (((parseQueries t).take 3).foldl
            (fun acc q => acc ++ search_with_fallback env q 2)
            st.content) }) := by
  simp [stepNode, research_plan_node, call_mistral_api, h]

lemma stepNode_reflect_ok (env : Env) (st : AgentState) (t : String)
    (h : env.post MISTRAL_API_URL (mkPrompt (reflectionMessages st)) =
      .ok t) :
    stepNode env .reflect st =
      .ok (some .research_critique, applyUpdate st { critique := some t }) := by
  simp [stepNode, reflection_node, call_mistral_api, h]

lemma stepNode_research_critique_ok (env : Env) (st : AgentState)
    (t : String)
    (h : env.post MISTRAL_API_URL (mkPrompt (researchCritiqueMessages st)) =
      .ok t) :
    stepNode env .research_critique st =
      .ok (some .generate, applyUpdate st
        { content := some (((parseQueries t).take 3).foldl
            (fun acc q => acc ++ search_with_fallback env q 2)
            st.content) }) := by
  simp [stepNode, research_critique_node, call_mistral_api, h]

lemma stepNode_generate_ok (env : Env) (st : AgentState) (t : String)
    (h : env.post MISTRAL_API_URL (mkPrompt (generateMessages st)) = .ok t) :
    stepNode env .generate st =
      .ok (if st.revision_number + 1 > st.max_revisions then none
           else some Node.reflect,
        applyUpdate st
          { draft := some t,
            revision_number := some (st.revision_number + 1) }) := by
  have hrev : (applyUpdate st
      { draft := some t,
        revision_number := some (st.revision_number + 1) }).revision_number =
      st.revision_number + 1 := rfl
  have hmax : (applyUpdate st
      { draft := some t,
        revision_number := some (st.revision_number + 1) }).max_revisions =
      st.max_revisions := rfl
  simp only [stepNode, generation_node, call_mistral_api, h]
  by_cases hgt : st.revision_number + 1 > st.max_revisions
  · have hsc : should_continue (applyUpdate st
        { draft := some t,
          revision_number := some (st.revision_number + 1) }) =
        Decision.finished := by
      simp [should_continue, hrev, hmax, hgt]
    rw [hsc]
    simp [hgt]
  · have hsc : should_continue (applyUpdate st
        { draft := some t,
          revision_number := some (st.revision_number + 1) }) =
        Decision.reflect := by
      simp [should_continue, hrev, hmax, hgt]
    rw [hsc]
    simp [hgt]

/-- The revision loop: entering `generate` with `d` revisions still allowed
performs exactly `d + 1` further Generate invocations and terminates. -/
lemma runFrom_generate_loop (env : Env)
    (hok : ∀ p, ∃ t, env.post MISTRAL_API_URL p = .ok t) :
    ∀ (d : Nat) (st : AgentState), st.revision_number + d = st.max_revisions →
    ∃ final, runFrom env (3 * d + 4) .generate st =
        .ok (some (final, d + 1)) ∧
      final.revision_number = st.max_revisions + 1 := by
  intro d
  induction d with
  | zero =>
    intro st hrev
    obtain ⟨t, ht⟩ := hok (mkPrompt (generateMessages st))
    have hstep := stepNode_generate_ok env st t ht
    rw [if_pos (by omega)] at hstep
    refine ⟨applyUpdate st
      { draft := some t,
        revision_number := some (st.revision_number + 1) }, ?_, ?_⟩
    · rw [(by omega : 3 * 0 + 4 = 3 + 1), runFrom_succ, hstep]
      simp [genInc]
    · show st.revision_number + 1 = st.max_revisions + 1
      omega
  | succ d ih =>
    intro st hrev
    obtain ⟨t1, ht1⟩ := hok (mkPrompt (generateMessages st))
    have hstep1 := stepNode_generate_ok env st t1 ht1
    rw [if_neg (by omega)] at hstep1
    set st1 := applyUpdate st
      { draft := some t1,
        revision_number := some (st.revision_number + 1) } with hst1
    obtain ⟨t2, ht2⟩ := hok (mkPrompt (reflectionMessages st1))
    have hstep2 := stepNode_reflect_ok env st1 t2 ht2
    set st2 := applyUpdate st1 { critique := some t2 } with hst2
    obtain ⟨t3, ht3⟩ := hok (mkPrompt (researchCritiqueMessages st2))
    have hstep3 := stepNode_research_critique_ok env st2 t3 ht3
    set st3 := applyUpdate st2
      { content := some (((parseQueries t3).take 3).foldl
          (fun acc q => acc ++ search_with_fallback env q 2)
          st2.content) } with hst3
    have hrev3 : st3.revision_number = st.revision_number + 1 := rfl
    have hmax3 : st3.max_revisions = st.max_revisions := rfl
    obtain ⟨final, hrun, hfin⟩ := ih st3 (by omega)
    have hA : runFrom env (3 * d + 4 + 1) .research_critique st2 =
        .ok (some (final, d + 1)) := by
      rw [runFrom_succ, hstep3]
      simp [← hst3, hrun, genInc]
    have hB : runFrom env (3 * d + 4 + 1 + 1) .reflect st1 =
        .ok (some (final, d + 1)) := by
      rw [runFrom_succ, hstep2]
      simp [← hst2, hA, genInc]
    refine ⟨final, ?_, ?_⟩
    · rw [(by omega : 3 * (d + 1) + 4 = 3 * d + 4 + 1 + 1 + 1),
        runFrom_succ, hstep1]
      simp [← hst1, hB, genInc, Nat.one_add]
    · rw [hfin, hmax3]

/-- C1: starting from the initial state (`revision_number = 0`) with any
`max_revisions = N ≥ 0` and a completion endpoint that answers every call,
the orchestrator reaches the terminal state after exactly `N + 1` Generate
invocations, and every Generate invocation increments `revision_number` by
exactly 1. -/
theorem orchestrator_terminates (env : Env)
    (hok : ∀ p, ∃ t, env.post MISTRAL_API_URL p = .ok t)
    (task : String) (N : Nat) :
    (∃ final, runFrom env (3 * N + 6) .planner (initialState task N) =
        .ok (some (final, N + 1)) ∧ final.revision_number = N + 1) ∧
    (∀ st u, generation_node env st = .ok u →
        u.revision_number = some (st.revision_number + 1) ∧
        (applyUpdate st u).revision_number = st.revision_number + 1) := by
  constructor
  · obtain ⟨t1, ht1⟩ := hok (mkPrompt (planMessages (initialState task N)))
    have hstep1 := stepNode_planner_ok env (initialState task N) t1 ht1
    set st1 := applyUpdate (initialState task N) { plan := some t1 } with hst1
    obtain ⟨t2, ht2⟩ := hok (mkPrompt (researchPlanMessages st1))
    have hstep2 := stepNode_research_plan_ok env st1 t2 ht2
    set st2 := applyUpdate st1
      { content := some (((parseQueries t2).take 3).foldl
          (fun acc q => acc ++ search_with_fallback env q 2)
          st1.content) } with hst2
    have hrev2 : st2.revision_number = 0 := rfl
    have hmax2 : st2.max_revisions = N := rfl
    obtain ⟨final, hrun, hfin⟩ := runFrom_generate_loop env hok N st2
      (by omega)
    have hA : runFrom env (3 * N + 4 + 1) .research_plan st1 =
        .ok (some (final, N + 1)) := by
      rw [runFrom_succ, hstep2]
      simp [← hst2, hrun, genInc]
    refine ⟨final, ?_, ?_⟩
    · rw [(by omega : 3 * N + 6 = 3 * N + 4 + 1 + 1), runFrom_succ, hstep1]
      simp [← hst1, hA, genInc]
    · rw [hfin, hmax2]
  · intro st u h
    revert h
    unfold generation_node
    cases call_mistral_api env (generateMessages st) with
    | error e => intro h; exact Except.noConfusion h
    | ok r =>
      intro h
      injection h with h
      subst h
      exact ⟨rfl, rfl⟩

/-- Witness for C1: on the all-up environment, the Generate stage's update
increments `revision_number` from 0 to 1. -/
theorem orchestrator_terminates_witness :
    ({ draft := some "response text", revision_number := some 1 } :
        Update).revision_number = some (0 + 1) ∧
    (applyUpdate (initialState "Climate policy" 0)
      { draft := some "response text",
        revision_number := some 1 }).revision_number = 0 + 1 :=
  (orchestrator_terminates testEnv (fun _ => ⟨"response text", rfl⟩)
    "Climate policy" 0).2 (initialState "Climate policy" 0)
    { draft := some "response text", revision_number := some 1 } rfl
